import Mathlib

/-
  Shallow embedding of the session-lifecycle and access-control core of the
  BYOD repository (src/security/models.py, src/security/session_utils.py,
  src/security/middleware.py).

  Conventions of the embedding:
  * timestamps are integers (seconds); `timedelta.total_seconds()` becomes
    integer subtraction; `timezone.now()` becomes an explicit `now` argument;
  * Django rows become Lean structures; a queryset over a table becomes a
    `List` kept in row-insertion order, `filter`/`exclude` become `List.filter`,
    `.first()` after `order_by` becomes the first row attaining the ordering key
    (ties keep the underlying row order, as a single-column ORDER BY does);
  * JSON-list / JSON-dict columns (`allowed_domains`, `violation_details`,
    `time_restrictions`) are carried in parsed form: the accessors in the code
    (`get_allowed_domains`, `get_violations`, `get_time_restrictions`) parse on
    every read and fall back to empty on malformed data, and every writer in the
    core writes `json.dumps` of a list/dict, so parse ∘ dump is the identity and
    the parsed value is the faithful state;
  * `Model.save()` runs `full_clean()`; on `ValidationError` the row is not
    written, so the persisted-state embedding of a mutator returns the old row
    when the mutated row fails `clean()`.
-/

namespace BYOD

/-- One entry of the parsed `violation_details` JSON log of a `SessionTracker`
(the dict built in `SessionTracker.add_violation`, models.py 404-408):
a type tag, the timestamp, and an opaque details payload. -/
structure Violation where
  vtype : String
  timestamp : Int
  details : String
  deriving Repr, DecidableEq

/-- Embedding of the `SessionTracker` model row (models.py 238-320).
`userId` stands for the `user` foreign key, `violations` for the parsed
`violation_details` column.  The `device` foreign key and `user_agent` play no
role in any claimed property and are omitted. -/
structure SessionTracker where
  userId : Nat
  session_key : String
  login_time : Int
  logout_time : Option Int
  last_activity : Int
  ip_address : String
  status : String
  violation_count : Nat
  violations : List Violation
  deriving Repr, DecidableEq

namespace SessionTracker

/-- Embedding of `SessionTracker.clean` (models.py 325-340): the one check that
bears on the embedded fields is that `logout_time` must not lie before
`login_time` (the JSON-validity check always passes on state written by the
core, see the header comment). -/
def cleanOk (t : SessionTracker) : Bool :=
  match t.logout_time with
  | some lo => decide (t.login_time ≤ lo)
  | none => true

/-- Embedding of `SessionTracker.save` (models.py 342-347): it runs `full_clean` and raises on
failure, leaving the stored row unchanged; `old` is the stored row, `new` the
mutated one. -/
def saveChecked (old new : SessionTracker) : SessionTracker :=
  if cleanOk new then new else old

/-- The status chosen by `SessionTracker.end_session` (models.py 383-388)
from its `reason` argument. -/
def endStatus (reason : String) : String :=
  if reason = "violation" then "violation"
  else if reason = "timeout" then "expired"
  else "inactive"

/-- Embedding of `SessionTracker.end_session` (models.py 378-390): set
`logout_time` to now, set the status from the reason, save. -/
def end_session (t : SessionTracker) (reason : String) (now : Int) : SessionTracker :=
  saveChecked t { t with logout_time := some now, status := endStatus reason }

/-- Embedding of `SessionTracker.update_activity` (models.py 371-376). -/
def update_activity (t : SessionTracker) (now : Int) : SessionTracker :=
  saveChecked t { t with last_activity := now }

/-- Embedding of `SessionTracker.add_violation` (models.py 392-412): increment
`violation_count` and append a record to the parsed violation log. -/
def add_violation (t : SessionTracker) (vtype : String) (details : String)
    (now : Int) : SessionTracker :=
  saveChecked t { t with
    violation_count := t.violation_count + 1,
    violations := t.violations ++ [{ vtype := vtype, timestamp := now, details := details }] }

/-- Embedding of `SessionTracker.get_violations` (models.py 414-421): the
parsed violation log. -/
def get_violations (t : SessionTracker) : List Violation :=
  t.violations

/-- Embedding of the `time_since_last_activity` property (models.py 364-369). -/
def time_since_last_activity (t : SessionTracker) (now : Int) : Int :=
  now - t.last_activity

/-- Embedding of `SessionTracker.is_session_expired` (models.py 423-431):
any non-active session reports expired; an active one is expired when its
inactivity strictly exceeds `timeout_minutes` minutes. -/
def is_session_expired (t : SessionTracker) (now : Int) (timeout_minutes : Nat) : Bool :=
  if t.status ≠ "active" then true
  else decide (time_since_last_activity t now > (timeout_minutes : Int) * 60)

/-- Embedding of the `is_active` property (models.py 357-362). -/
def is_active (t : SessionTracker) : Bool :=
  t.status = "active" && t.logout_time = none

/-- Embedding of the classmethod `SessionTracker.cleanup_expired_sessions`
(models.py 447-462) acting on the whole table: every row that is `active`,
idle strictly longer than the cutoff and without a `logout_time` is ended with
reason `timeout`; every other row is untouched.  (The Python returns a count
obtained by re-running the queryset after the loop; only the table state is
claimed about, so only it is modelled.) -/
def cleanup_expired_sessions (sessions : List SessionTracker) (now : Int)
    (timeout_minutes : Nat) : List SessionTracker :=
  sessions.map fun s =>
    if s.status = "active" ∧ s.last_activity < now - (timeout_minutes : Int) * 60 ∧
        s.logout_time = none
    then end_session s "timeout" now
    else s

end SessionTracker

/-- Python `str.lower`, character by character (`day.lower()`,
models.py 225-226). -/
def strLower (s : String) : String :=
  String.mk (s.data.map Char.toLower)

/-- Lexicographic comparison of character lists by code point: the string comparison of Python. -/
def charListLe : List Char → List Char → Bool
  | [], _ => true
  | _ :: _, [] => false
  | a :: as, b :: bs =>
      if a.toNat < b.toNat then true
      else if b.toNat < a.toNat then false
      else charListLe as bs

/-- Python string `<=` (the comparison of `HH:MM` strings, models.py 232). -/
def strLe (a b : String) : Bool :=
  charListLe a.data b.data

/-- The time-of-evaluation data `AccessControl.is_time_allowed` reads from its
`current_time` argument: `weekday` is `strftime("%A")` (a capitalised English
day name) and `hhmm` is `strftime("%H:%M")`. -/
structure LocalTime where
  weekday : String
  hhmm : String
  deriving Repr, DecidableEq

/-- Embedding of the `AccessControl` model row (models.py 48-110).
`allowed_domains` and `blocked_domains` carry the parsed JSON lists
(`get_allowed_domains` / `get_blocked_domains`, malformed data parsing to the
empty list); `days`, `start_time`, `end_time` carry the parsed
`time_restrictions` dict, each `none` when the key is absent (a malformed dict
parses to all-`none`). -/
structure AccessControl where
  role : String
  allowed_domains : List String
  blocked_domains : List String
  days : Option (List String)
  start_time : Option String
  end_time : Option String
  deriving Repr, DecidableEq

namespace AccessControl

/-- Embedding of `AccessControl.is_domain_allowed` (models.py 194-210). -/
def is_domain_allowed (r : AccessControl) (domain : String) : Bool :=
  if domain ∈ r.blocked_domains then false
  else if r.allowed_domains = [] then true
  else decide (domain ∈ r.allowed_domains)

/-- The day check of `is_time_allowed` (models.py 224-227): when a `days` list
is present, the lower-cased current weekday must be among the lower-cased
entries. -/
def dayAllowed (r : AccessControl) (current_time : LocalTime) : Bool :=
  match r.days with
  | none => true
  | some ds => decide (strLower current_time.weekday ∈ ds.map strLower)

/-- The time-window check of `is_time_allowed` (models.py 230-233): when both
`start_time` and `end_time` are present, the current `HH:MM` string must lie
lexically in the inclusive range. -/
def windowAllowed (r : AccessControl) (current_time : LocalTime) : Bool :=
  match r.start_time, r.end_time with
  | some s, some e => strLe s current_time.hhmm && strLe current_time.hhmm e
  | _, _ => true

/-- Embedding of `AccessControl.is_time_allowed` (models.py 212-235): an empty
restrictions dict allows everything; otherwise the day check and then the
time-window check must both pass. -/
def is_time_allowed (r : AccessControl) (current_time : LocalTime) : Bool :=
  if r.days = none ∧ r.start_time = none ∧ r.end_time = none then true
  else dayAllowed r current_time && windowAllowed r current_time

end AccessControl

/-- Shared mutable state seen by `SessionManager` and
`SessionValidationMiddleware`: the `SessionTracker` table in row-insertion
order, the Django transport-session table (as the list of live session keys),
and the `session_count_{user}` cache of `SessionManager` (an association list
from user id to cached count; the cache TTL only removes entries and is not
modelled, nor are the unrelated notification / activity-display cache keys). -/
structure MgrState where
  trackers : List SessionTracker
  djangoSessions : List String
  sessionCountCache : List (Nat × Nat)
  deriving Repr, DecidableEq

/-- The empty initial state: no trackers, no transport sessions, empty cache. -/
def emptyState : MgrState :=
  { trackers := [], djangoSessions := [], sessionCountCache := [] }

/-- The queryset predicate of `SessionManager.get_active_sessions_for_user`
(session_utils.py 44-48): rows of the user with status `active` and no
`logout_time`. -/
def isActiveForUser (u : Nat) (t : SessionTracker) : Bool :=
  decide (t.userId = u ∧ t.status = "active" ∧ t.logout_time = none)

/-- Embedding of `SessionManager.get_active_sessions_for_user`
(session_utils.py 33-48). -/
def get_active_sessions_for_user (ts : List SessionTracker) (u : Nat) :
    List SessionTracker :=
  ts.filter (isActiveForUser u)

/-- Reading the session-count cache key of a user (`cache.get`). -/
def cacheLookup (c : List (Nat × Nat)) (u : Nat) : Option Nat :=
  (c.find? fun p => decide (p.1 = u)).map Prod.snd

/-- Deleting the session-count cache key of a user
(`SessionManager._clear_user_session_cache`, session_utils.py 379-390). -/
def cacheClear (c : List (Nat × Nat)) (u : Nat) : List (Nat × Nat) :=
  c.filter fun p => decide (p.1 ≠ u)

/-- Embedding of `SessionManager.get_session_count_for_user`
(session_utils.py 50-68): return the cached count when present, else count the
active sessions and cache the result. -/
def get_session_count_for_user (st : MgrState) (u : Nat) : Nat × MgrState :=
  match cacheLookup st.sessionCountCache u with
  | some c => (c, st)
  | none =>
      let c := (get_active_sessions_for_user st.trackers u).length
      (c, { st with sessionCountCache := (u, c) :: st.sessionCountCache })

/-- Embedding of `SessionManager.can_create_new_session` (session_utils.py
70-85) for an authenticated user (the middleware never reaches the session
machinery for unauthenticated callers, middleware.py 60-62). -/
def can_create_new_session (maxConcurrent : Nat) (st : MgrState) (u : Nat) :
    Bool × MgrState :=
  let r := get_session_count_for_user st u
  (decide (r.1 < maxConcurrent), r.2)

/-- One comparison step of the scan below: keep the accumulator unless the
candidate row is strictly older. -/
def olderRow (acc : Option SessionTracker) (t : SessionTracker) :
    Option SessionTracker :=
  match acc with
  | none => some t
  | some b => if t.login_time < b.login_time then some t else some b

/-- Embedding of the queryset idiom order_by(login_time) followed by first()
(`SessionManager.end_oldest_session_for_user`, session_utils.py 100): the
first row attaining the minimal `login_time`; rows sharing the minimal
`login_time` keep their underlying order, so the earliest such row wins. -/
def oldestFirst (ts : List SessionTracker) : Option SessionTracker :=
  ts.foldl olderRow none

/-- Deleting the Django `Session` row with a given key. -/
def removeKey (ks : List String) (k : String) : List String :=
  ks.filter fun x => decide (x ≠ k)

/-- Updating the table row addressed by a session key (the key column is
unique, models.py 265-269, so at most one row matches in any store-legal
state). -/
def updateByKey (ts : List SessionTracker) (k : String)
    (f : SessionTracker → SessionTracker) : List SessionTracker :=
  ts.map fun t => if t.session_key = k then f t else t

/-- Embedding of `SessionManager.end_oldest_session_for_user`
(session_utils.py 87-121): end the oldest active session of the user, delete
its Django session row, clear the session-count cache of the user; report
whether a session was ended.  When `end_session` raises from its save
validation (the mutated row fails `clean`), the surrounding `except` catches
it and returns `False` with nothing yet deleted, so the store is unchanged. -/
def end_oldest_session_for_user (st : MgrState) (u : Nat) (reason : String)
    (now : Int) : Bool × MgrState :=
  match oldestFirst (get_active_sessions_for_user st.trackers u) with
  | none => (false, st)
  | some o =>
      if SessionTracker.cleanOk
          { o with logout_time := some now, status := SessionTracker.endStatus reason } then
        (true,
          { trackers := updateByKey st.trackers o.session_key
              (fun t => t.end_session reason now),
            djangoSessions := removeKey st.djangoSessions o.session_key,
            sessionCountCache := cacheClear st.sessionCountCache u })
      else (false, st)

/-- Embedding of `SessionManager.handle_concurrent_session_attempt`
(session_utils.py 167-198).  (The Python signature also takes the current
session key but never reads it.)  Returns `(allowed, message)` plus the
updated state. -/
def handle_concurrent_session_attempt (policy : String) (maxConcurrent : Nat)
    (st : MgrState) (u : Nat) (now : Int) : Bool × String × MgrState :=
  let r := can_create_new_session maxConcurrent st u
  if r.1 then (true, "Session allowed", r.2)
  else if policy = "allow" then (true, "Multiple sessions allowed", r.2)
  else if policy = "replace_oldest" then
    let e := end_oldest_session_for_user r.2 u "new_session_limit" now
    if e.1 then (true, "Oldest session terminated, new session allowed", e.2)
    else (false, "Failed to terminate oldest session", e.2)
  else
    (false, "Multiple sessions not allowed. Please log out from other devices first.", r.2)

/-- Embedding of `SessionSecurityMonitor._has_rapid_login_attempts`
(session_utils.py 471-488): more than 5 rows of the user created in the
trailing 10 minutes. -/
def hasRapidLoginAttempts (ts : List SessionTracker) (u : Nat) (now : Int) : Bool :=
  decide
    ((ts.filter fun s => decide (s.userId = u ∧ now - 600 ≤ s.login_time)).length > 5)

/-- Embedding of `SessionSecurityMonitor._has_unusual_ip_pattern`
(session_utils.py 490-506): more than 3 distinct IP addresses across the
rows of the user created in the trailing 24 hours. -/
def hasUnusualIpPattern (ts : List SessionTracker) (u : Nat) (now : Int) : Bool :=
  decide
    ((((ts.filter fun s => decide (s.userId = u ∧ now - 86400 ≤ s.login_time)).map
        (fun s => s.ip_address)).dedup).length > 3)

/-- Embedding of `SessionSecurityMonitor._has_unusual_session_duration`
(session_utils.py 508-522): still `active` and running for more than 12
hours. -/
def hasUnusualSessionDuration (t : SessionTracker) (now : Int) : Bool :=
  if t.status = "active" then decide (now - t.login_time > 12 * 3600) else false

/-- Embedding of `SessionSecurityMonitor.detect_suspicious_activity`
(session_utils.py 436-469): the list of anomaly tags, in source order. -/
def detect_suspicious_activity (ts : List SessionTracker) (t : SessionTracker)
    (now : Int) : List String :=
  (if hasRapidLoginAttempts ts t.userId now then ["rapid_login_attempts"] else []) ++
  (if hasUnusualIpPattern ts t.userId now then ["unusual_ip_pattern"] else []) ++
  (if hasUnusualSessionDuration t now then ["unusual_session_duration"] else []) ++
  (if t.violation_count > 5 then ["excessive_violations"] else [])

/-- The short-circuit outcome of `SessionValidationMiddleware.process_request`
(middleware.py 52-83): continue the request, redirect to login after a timeout
(middleware.py 223-248, status 401), redirect after a concurrency denial
(middleware.py 250-298, status 403), or an uncaught store error propagating to
the caller (no path of the source produces this constructor; it exists so
error-propagation claims are expressible). -/
inductive MwResponse where
  | continueRequest
  | redirectTimeout
  | forbiddenConcurrent
  | storeFailure (msg : String)
  deriving Repr, DecidableEq

/-- The queryset lookup of `_get_or_create_session_tracker` (middleware.py
110-115): get by session key restricted to status active — the key column is unique so
at most one row matches. -/
def findActiveByKey (ts : List SessionTracker) (k : String) :
    Option SessionTracker :=
  ts.find? fun t => decide (t.session_key = k ∧ t.status = "active")

/-- Whether any row (of any status) already holds a session key: the unique
constraint consulted by `SessionTracker.objects.create`. -/
def keyExists (ts : List SessionTracker) (k : String) : Bool :=
  ts.any fun t => decide (t.session_key = k)

/-- The row built by `_create_new_session_tracker` (middleware.py 128-154):
status `active`, `login_time` and `last_activity` stamped now, no violations.
Device resolution (middleware.py 156-184) only picks the `device` foreign key,
which is not embedded. -/
def newTracker (u : Nat) (k : String) (ip : String) (now : Int) : SessionTracker :=
  { userId := u, session_key := k, login_time := now, logout_time := none,
    last_activity := now, ip_address := ip, status := "active",
    violation_count := 0, violations := [] }

/-- Embedding of `_get_or_create_session_tracker` (middleware.py 106-126):
resolve the active row holding the transport session key, else create one; a
creation that violates the unique key constraint raises, is caught, and yields
no tracker (middleware.py 152-154), leaving the state unchanged. -/
def getOrCreateSessionTracker (st : MgrState) (u : Nat) (k : String)
    (ip : String) (now : Int) : Option SessionTracker × MgrState :=
  match findActiveByKey st.trackers k with
  | some t => (some t, st)
  | none =>
      if keyExists st.trackers k then (none, st)
      else
        let t := newTracker u k ip now
        (some t, { st with trackers := st.trackers ++ [t] })

/-- Embedding of `SessionValidationMiddleware._is_session_expired`
(middleware.py 197-205) for a resolved tracker: inactivity strictly above the
the `SESSION_TIMEOUT` minutes of the middleware (no status test here, unlike the model
method). -/
def mwIsSessionExpired (timeoutMin : Nat) (t : SessionTracker) (now : Int) : Bool :=
  decide (now - t.last_activity > (timeoutMin : Int) * 60)

/-- Embedding of `SessionValidationMiddleware._has_concurrent_sessions`
(middleware.py 207-221) over a fallible store read: the argument carries either
the active-session rows of the user or the store error raised while querying them.
The `except` clause logs the error and returns `False`. -/
def hasConcurrentSessionsChecked (query : Except String (List SessionTracker))
    (k : String) : Bool :=
  match query with
  | Except.ok active => active.any fun t => decide (t.session_key ≠ k)
  | Except.error _ => false

/-- Embedding of `SessionValidationMiddleware._handle_concurrent_session`
(middleware.py 250-298): ask `handle_concurrent_session_attempt`; when allowed,
continue; when denied, append a `concurrent_session` violation to the current
row, end it with reason `violation`, log the caller out (flushing the transport
session), and short-circuit with the forbidden response.  (The user
notification is written to an unmodelled cache key.) -/
def handleConcurrentSession (policy : String) (maxConcurrent : Nat)
    (st : MgrState) (u : Nat) (k : String) (now : Int) : MwResponse × MgrState :=
  let r := handle_concurrent_session_attempt policy maxConcurrent st u now
  if r.1 then (MwResponse.continueRequest, r.2.2)
  else
    (MwResponse.forbiddenConcurrent,
      { trackers := updateByKey r.2.2.trackers k
          (fun t => (t.add_violation "concurrent_session" r.2.1 now).end_session
            "violation" now),
        djangoSessions := removeKey r.2.2.djangoSessions k,
        sessionCountCache := r.2.2.sessionCountCache })

/-- The concurrency portion of `process_request` (middleware.py 73-75): run
`_has_concurrent_sessions` on the (possibly failing) store read; on `True`
delegate to `_handle_concurrent_session`, otherwise continue. -/
def concurrencyStep (policy : String) (maxConcurrent : Nat)
    (query : Except String (List SessionTracker)) (st : MgrState) (u : Nat)
    (k : String) (now : Int) : MwResponse × MgrState :=
  if hasConcurrentSessionsChecked query k then
    handleConcurrentSession policy maxConcurrent st u k now
  else (MwResponse.continueRequest, st)

/-- The activity-update and monitoring tail of `process_request`
(middleware.py 77-81, 300-319, 341-366): stamp `last_activity` on the current
row, then append one violation per detected anomaly tag. -/
def activityAndMonitorStep (st : MgrState) (t : SessionTracker) (k : String)
    (now : Int) : MgrState :=
  let trackers1 := updateByKey st.trackers k (fun s => s.update_activity now)
  let tags := detect_suspicious_activity trackers1 (t.update_activity now) now
  { st with
    trackers := updateByKey trackers1 k
      (fun s => tags.foldl (fun acc tag => acc.add_violation tag "detected" now) s) }

/-- Embedding of `SessionValidationMiddleware.process_request`
(middleware.py 52-83) for an authenticated request on a non-exempt path (the
exempt/unauthenticated branches return before touching any embedded state):
resolve or create the tracker, check inactivity timeout, then check
concurrency.  When `_has_concurrent_sessions` fires, the middleware returns
the result of `_handle_concurrent_session` directly (middleware.py 74-75) —
even an allowed attempt skips the activity-update and monitoring tail; only a
request whose concurrency check did not fire reaches
`_update_activity_tracking` and `_monitor_suspicious_activity`. -/
def process_request (policy : String) (maxConcurrent : Nat) (timeoutMin : Nat)
    (st : MgrState) (u : Nat) (k : String) (ip : String) (now : Int) :
    MwResponse × MgrState :=
  match getOrCreateSessionTracker st u k ip now with
  | (none, st0) => (MwResponse.continueRequest, st0)
  | (some t, st0) =>
      if mwIsSessionExpired timeoutMin t now then
        (MwResponse.redirectTimeout,
          { trackers := updateByKey st0.trackers k (fun s => s.end_session "timeout" now),
            djangoSessions := removeKey st0.djangoSessions k,
            sessionCountCache := st0.sessionCountCache })
      else if hasConcurrentSessionsChecked
          (Except.ok (get_active_sessions_for_user st0.trackers u)) k then
        handleConcurrentSession policy maxConcurrent st0 u k now
      else
        (MwResponse.continueRequest, activityAndMonitorStep st0 t k now)

/-- One session-bearing request: the transport session key, the client IP and
the request time. -/
structure Request where
  session_key : String
  ip : String
  now : Int
  deriving Repr, DecidableEq

/-- A sequence of requests of a single user driven through
`process_request`, starting from a given state. -/
def runRequests (policy : String) (maxConcurrent : Nat) (timeoutMin : Nat)
    (u : Nat) (st : MgrState) (reqs : List Request) : MgrState :=
  reqs.foldl
    (fun s r => (process_request policy maxConcurrent timeoutMin s u r.session_key r.ip r.now).2)
    st

/-- One core mutation of a single `SessionTracker` row together with the time
at which it runs: the three row mutators of models.py. -/
inductive TrackerOp where
  | endSession (reason : String) (now : Int)
  | addViolation (vtype : String) (details : String) (now : Int)
  | updateActivity (now : Int)
  deriving Repr, DecidableEq

/-- Apply one mutation to a row. -/
def applyOp (t : SessionTracker) : TrackerOp → SessionTracker
  | TrackerOp.endSession reason now => t.end_session reason now
  | TrackerOp.addViolation vtype details now => t.add_violation vtype details now
  | TrackerOp.updateActivity now => t.update_activity now

/-- Apply a sequence of mutations to a row, oldest first. -/
def applyOps (t : SessionTracker) (ops : List TrackerOp) : SessionTracker :=
  ops.foldl applyOp t

/-- The per-row invariant: `logout_time` is null exactly on `active` rows,
`logout_time` is never before `login_time`, and `violation_count` matches the
length of the parsed violation log. -/
def trackerInvariant (t : SessionTracker) : Prop :=
  (t.logout_time = none ↔ t.status = "active") ∧
  (∀ lo, t.logout_time = some lo → t.login_time ≤ lo) ∧
  t.violation_count = (SessionTracker.get_violations t).length

/-- The single-user concurrency invariant together with the cache side
condition that makes it inductive: at most one active session of the user, and
every cached session count is at least 1 (counts are only ever cached at
moments when the user holds at least one active session). -/
def denyInvariant (u : Nat) (st : MgrState) : Prop :=
  (get_active_sessions_for_user st.trackers u).length ≤ 1 ∧
  ∀ p ∈ st.sessionCountCache, 1 ≤ p.2

/- Concrete instances used by witnesses and counterexamples. -/

/-- An active session row idle for 45 minutes at time 10000. -/
def tC5idle45 : SessionTracker :=
  { userId := 1, session_key := "k45", login_time := 7000, logout_time := none,
    last_activity := 7300, ip_address := "10.0.0.1", status := "active",
    violation_count := 0, violations := [] }

/-- An active session row idle for 5 minutes at time 10000. -/
def tC5idle5 : SessionTracker :=
  { userId := 1, session_key := "k5", login_time := 9000, logout_time := none,
    last_activity := 9700, ip_address := "10.0.0.1", status := "active",
    violation_count := 0, violations := [] }

/-- A terminated session row whose last activity is current. -/
def tC10terminated : SessionTracker :=
  { userId := 1, session_key := "kT", login_time := 0, logout_time := some 1,
    last_activity := 10000, ip_address := "10.0.0.1", status := "terminated",
    violation_count := 0, violations := [] }

/-- An already-ended (terminal) session row: ended at time 100 with status
`inactive`. -/
def tC3ended : SessionTracker :=
  { userId := 1, session_key := "kE", login_time := 0, logout_time := some 100,
    last_activity := 50, ip_address := "10.0.0.1", status := "inactive",
    violation_count := 0, violations := [] }

/-- The weekday/office-hours rule of the spec examples: 09:00-17:00,
Monday through Friday. -/
def ruleOfficeHours : AccessControl :=
  { role := "student", allowed_domains := [], blocked_domains := [],
    days := some ["monday", "tuesday", "wednesday", "thursday", "friday"],
    start_time := some "09:00", end_time := some "17:00" }

/-- A rule with no time restrictions at all. -/
def ruleUnrestricted : AccessControl :=
  { role := "student", allowed_domains := [], blocked_domains := [],
    days := none, start_time := none, end_time := none }

/-- A rule blocking x.com with no allow-list. -/
def ruleBlockX : AccessControl :=
  { role := "student", allowed_domains := [], blocked_domains := ["x.com"],
    days := none, start_time := none, end_time := none }

/-- A rule allowing only edu.com with no block-list. -/
def ruleAllowEdu : AccessControl :=
  { role := "student", allowed_domains := ["edu.com"], blocked_domains := [],
    days := none, start_time := none, end_time := none }

/-- The Saturday 10:00 evaluation instant. -/
def saturdayTen : LocalTime :=
  { weekday := "Saturday", hhmm := "10:00" }

/-- The Tuesday 12:00 evaluation instant. -/
def tuesdayNoon : LocalTime :=
  { weekday := "Tuesday", hhmm := "12:00" }

/-- First-created active session of user 0 in the C2 tie scenario: session
key b, login time 0. -/
def tC2rowB : SessionTracker :=
  { userId := 0, session_key := "b", login_time := 0, logout_time := none,
    last_activity := 0, ip_address := "10.0.0.2", status := "active",
    violation_count := 0, violations := [] }

/-- Second-created active session of user 0 in the C2 tie scenario: session
key a (lexically lowest), login time 0 as well. -/
def tC2rowA : SessionTracker :=
  { userId := 0, session_key := "a", login_time := 0, logout_time := none,
    last_activity := 0, ip_address := "10.0.0.3", status := "active",
    violation_count := 0, violations := [] }

/-- C2 tie scenario state: rows b then a in creation order, both active with
identical login_time, transport sessions live for both, empty count cache. -/
def stC2tie : MgrState :=
  { trackers := [tC2rowB, tC2rowA], djangoSessions := ["b", "a"],
    sessionCountCache := [] }

/-- C2 witness scenario state: two active sessions of user 0 with distinct
login times, oldest first. -/
def stC2distinct : MgrState :=
  { trackers := [tC2rowB, { tC2rowA with login_time := 5 }],
    djangoSessions := ["b", "a"], sessionCountCache := [] }

/-- C2 stale-cache scenario state: user 0 actually holds two active sessions
(the limit for max_concurrent_sessions = 2), but the session-count cache still
holds the stale value 1 from an earlier moment (the cache is written during
concurrent attempts and is not invalidated when a session is created). -/
def stC2stale : MgrState :=
  { trackers := [tC2rowB, { tC2rowA with login_time := 5 }],
    djangoSessions := ["b", "a"], sessionCountCache := [(0, 1)] }

/-- A store state in which user 0 genuinely holds an active session on another
session key, used while the concurrency count query fails. -/
def stC4 : MgrState :=
  { trackers := [tC2rowB], djangoSessions := ["b"], sessionCountCache := [] }

/-- Claim C8 scenario, at time 10000 with a 30-minute cutoff: one active
session idle 45 minutes. -/
def sC8idle45 : SessionTracker :=
  { userId := 2, session_key := "c8a", login_time := 7000, logout_time := none,
    last_activity := 7300, ip_address := "10.0.0.4", status := "active",
    violation_count := 0, violations := [] }

/-- Claim C8 scenario: one active session idle 5 minutes. -/
def sC8idle5 : SessionTracker :=
  { userId := 2, session_key := "c8b", login_time := 9000, logout_time := none,
    last_activity := 9700, ip_address := "10.0.0.4", status := "active",
    violation_count := 0, violations := [] }

/-
  Theorems.
-/

/-- C5: for every tracker with status `active` and a 30-minute timeout,
`is_session_expired` returns true exactly when `now - last_activity` strictly
exceeds 1800 seconds; in particular a row idle 45 minutes (2700 s) is detected
expired and a row idle 5 minutes (300 s) is not. -/
theorem C5_active_expiry_iff :
    (∀ (t : SessionTracker) (now : Int), t.status = "active" →
      (SessionTracker.is_session_expired t now 30 = true ↔
        1800 < now - t.last_activity)) ∧
    (∀ (t : SessionTracker) (now : Int), t.status = "active" →
      t.last_activity = now - 2700 →
      SessionTracker.is_session_expired t now 30 = true) ∧
    (∀ (t : SessionTracker) (now : Int), t.status = "active" →
      t.last_activity = now - 300 →
      SessionTracker.is_session_expired t now 30 = false) := by
  refine ⟨?_, ?_, ?_⟩
  · intro t now h
    simp [SessionTracker.is_session_expired, SessionTracker.time_since_last_activity, h]
  · intro t now h hla
    simp [SessionTracker.is_session_expired, SessionTracker.time_since_last_activity, h, hla]
  · intro t now h hla
    simp [SessionTracker.is_session_expired, SessionTracker.time_since_last_activity, h, hla]

/-- Witness for C5 at time 10000: the row idle since 7300 (45 minutes) is
expired, the row idle since 9700 (5 minutes) is not. -/
theorem C5_active_expiry_iff_witness :
    SessionTracker.is_session_expired tC5idle45 10000 30 = true ∧
    SessionTracker.is_session_expired tC5idle5 10000 30 = false :=
  ⟨C5_active_expiry_iff.2.1 tC5idle45 10000 (by decide) (by decide),
   C5_active_expiry_iff.2.2 tC5idle5 10000 (by decide) (by decide)⟩

/-- C10: for every tracker whose status is not `active`, `is_session_expired`
returns true regardless of `last_activity` and of the timeout parameter. -/
theorem C10_nonactive_always_expired :
    ∀ (t : SessionTracker) (now : Int) (timeout_minutes : Nat),
      t.status ≠ "active" →
      SessionTracker.is_session_expired t now timeout_minutes = true := by
  intro t now tm h
  simp [SessionTracker.is_session_expired, h]

/-- Witness for C10: a `terminated` row whose last activity is the current
instant is reported expired, for a 30-minute and for an absurdly large
timeout. -/
theorem C10_nonactive_always_expired_witness :
    SessionTracker.is_session_expired tC10terminated 10000 30 = true ∧
    SessionTracker.is_session_expired tC10terminated 10000 99999 = true :=
  ⟨C10_nonactive_always_expired tC10terminated 10000 30 (by decide),
   C10_nonactive_always_expired tC10terminated 10000 99999 (by decide)⟩

/-- C7: `is_domain_allowed` returns false on blocked domains; otherwise it
returns true when the allow-list is empty; otherwise it returns true exactly
when the domain is on the allow-list. -/
theorem C7_domain_allowed_cases :
    (∀ (r : AccessControl) (domain : String), domain ∈ r.blocked_domains →
        AccessControl.is_domain_allowed r domain = false) ∧
    (∀ (r : AccessControl) (domain : String), domain ∉ r.blocked_domains →
        r.allowed_domains = [] →
        AccessControl.is_domain_allowed r domain = true) ∧
    (∀ (r : AccessControl) (domain : String), domain ∉ r.blocked_domains →
        r.allowed_domains ≠ [] →
        (AccessControl.is_domain_allowed r domain = true ↔
          domain ∈ r.allowed_domains)) := by
  refine ⟨?_, ?_, ?_⟩
  · intro r d h
    simp [AccessControl.is_domain_allowed, h]
  · intro r d h1 h2
    simp [AccessControl.is_domain_allowed, h1, h2]
  · intro r d h1 h2
    simp [AccessControl.is_domain_allowed, h1, h2]

/-- Witness for C7 at the three spec examples: x.com against its own block
rule, other.com against an edu.com allow-list, anything.com against the empty
rule. -/
theorem C7_domain_allowed_cases_witness :
    AccessControl.is_domain_allowed ruleBlockX "x.com" = false ∧
    AccessControl.is_domain_allowed ruleUnrestricted "anything.com" = true ∧
    (AccessControl.is_domain_allowed ruleAllowEdu "other.com" = true ↔
      "other.com" ∈ ruleAllowEdu.allowed_domains) :=
  ⟨C7_domain_allowed_cases.1 ruleBlockX "x.com" (by decide),
   C7_domain_allowed_cases.2.1 ruleUnrestricted "anything.com" (by decide) (by decide),
   C7_domain_allowed_cases.2.2 ruleAllowEdu "other.com" (by decide) (by decide)⟩

/-- C6: `is_time_allowed` allows everything when no restriction is stored;
returns false when a `days` list is present and the weekday of now is not in
it; when both `start_time` and `end_time` are present it can only return true
with the `HH:MM` string of now lexically inside the inclusive window; and on
the 09:00-17:00 Monday-Friday rule, Saturday 10:00 is refused while Tuesday
12:00 is allowed. -/
theorem C6_time_allowed_cases :
    (∀ (r : AccessControl) (ct : LocalTime),
        r.days = none → r.start_time = none → r.end_time = none →
        AccessControl.is_time_allowed r ct = true) ∧
    (∀ (r : AccessControl) (ct : LocalTime) (ds : List String),
        r.days = some ds → strLower ct.weekday ∉ ds.map strLower →
        AccessControl.is_time_allowed r ct = false) ∧
    (∀ (r : AccessControl) (ct : LocalTime) (s e : String),
        r.start_time = some s → r.end_time = some e →
        AccessControl.is_time_allowed r ct = true →
        strLe s ct.hhmm = true ∧ strLe ct.hhmm e = true) ∧
    AccessControl.is_time_allowed ruleOfficeHours saturdayTen = false ∧
    AccessControl.is_time_allowed ruleOfficeHours tuesdayNoon = true := by
  refine ⟨?_, ?_, ?_, by decide, by decide⟩
  · intro r ct h1 h2 h3
    simp [AccessControl.is_time_allowed, h1, h2, h3]
  · intro r ct ds h1 h2
    simp [AccessControl.is_time_allowed, AccessControl.dayAllowed, h1, h2]
  · intro r ct s e h1 h2 h3
    rw [AccessControl.is_time_allowed] at h3
    rw [if_neg (by simp [h1])] at h3
    rcases Bool.and_eq_true _ _ |>.mp h3 with ⟨_, hw⟩
    rw [AccessControl.windowAllowed, h1, h2] at hw
    exact Bool.and_eq_true _ _ |>.mp hw

/-- Witness for C6: the unrestricted rule admits Saturday 10:00; the office
rule refuses Saturday by its day list; and its acceptance of Tuesday noon
forces 12:00 into the 09:00-17:00 window. -/
theorem C6_time_allowed_cases_witness :
    AccessControl.is_time_allowed ruleUnrestricted saturdayTen = true ∧
    AccessControl.is_time_allowed ruleOfficeHours saturdayTen = false ∧
    (strLe "09:00" tuesdayNoon.hhmm = true ∧ strLe tuesdayNoon.hhmm "17:00" = true) :=
  ⟨C6_time_allowed_cases.1 ruleUnrestricted saturdayTen (by decide) (by decide) (by decide),
   C6_time_allowed_cases.2.1 ruleOfficeHours saturdayTen
     ["monday", "tuesday", "wednesday", "thursday", "friday"] (by decide) (by decide),
   C6_time_allowed_cases.2.2.1 ruleOfficeHours tuesdayNoon "09:00" "17:00"
     (by decide) (by decide) (by decide)⟩

/-- C3 counterexample: `end_session` on an already-terminal row (status
`inactive`, logout_time 100) is not a no-op — re-ending it at time 200
overwrites `logout_time` with 200. -/
theorem C3_counterexample :
    tC3ended.status = "inactive" ∧ tC3ended.logout_time = some 100 ∧
    (SessionTracker.end_session tC3ended "logout" 200).logout_time = some 200 ∧
    (SessionTracker.end_session tC3ended "logout" 200).logout_time ≠
      tC3ended.logout_time := by
  decide

/-- C3 amended: `end_session` unconditionally stamps `logout_time` with the
current time and sets the terminal status determined by the reason (whenever
the stamped row passes the save validation `login_time ≤ now`); it is not
idempotent on already-ended rows. -/
theorem C3_end_session_overwrites :
    ∀ (t : SessionTracker) (reason : String) (now : Int), t.login_time ≤ now →
      (SessionTracker.end_session t reason now).logout_time = some now ∧
      (SessionTracker.end_session t reason now).status =
        SessionTracker.endStatus reason ∧
      SessionTracker.endStatus reason ≠ "active" := by
  intro t reason now h
  have hclean : SessionTracker.cleanOk
      { t with logout_time := some now, status := SessionTracker.endStatus reason } = true := by
    simp [SessionTracker.cleanOk, h]
  refine ⟨?_, ?_, ?_⟩
  · simp [SessionTracker.end_session, SessionTracker.saveChecked, hclean]
  · simp [SessionTracker.end_session, SessionTracker.saveChecked, hclean]
  · rw [SessionTracker.endStatus]
    split
    · decide
    · split
      · decide
      · decide

/-- Witness for C3 amended, at the already-ended concrete row re-ended at
time 200. -/
theorem C3_end_session_overwrites_witness :
    (SessionTracker.end_session tC3ended "logout" 200).logout_time = some 200 ∧
    (SessionTracker.end_session tC3ended "logout" 200).status =
      SessionTracker.endStatus "logout" ∧
    SessionTracker.endStatus "logout" ≠ "active" :=
  C3_end_session_overwrites tC3ended "logout" 200 (by decide)

/-- The status written by `end_session` is terminal: never `active`. -/
lemma endStatus_ne_active (reason : String) :
    SessionTracker.endStatus reason ≠ "active" := by
  rw [SessionTracker.endStatus]
  split
  · decide
  · split
    · decide
    · decide

/-- The save validation passes on any row satisfying the record invariant. -/
lemma trackerInvariant_cleanOk {t : SessionTracker} (h : trackerInvariant t) :
    SessionTracker.cleanOk t = true := by
  rcases h with ⟨_, h2, _⟩
  cases hl : t.logout_time with
  | none => simp [SessionTracker.cleanOk, hl]
  | some lo =>
      simp [SessionTracker.cleanOk, hl]
      exact h2 lo hl

/-- Each core row mutation preserves the record invariant. -/
lemma applyOp_invariant {t : SessionTracker} (op : TrackerOp)
    (h : trackerInvariant t) : trackerInvariant (applyOp t op) := by
  rcases h with ⟨h1, h2, h3⟩
  cases op with
  | endSession reason now =>
      by_cases hc : SessionTracker.cleanOk
          { t with logout_time := some now,
                   status := SessionTracker.endStatus reason } = true
      · have he : applyOp t (TrackerOp.endSession reason now) =
            { t with logout_time := some now,
                     status := SessionTracker.endStatus reason } := by
          simp [applyOp, SessionTracker.end_session, SessionTracker.saveChecked, hc]
        rw [he]
        refine ⟨?_, ?_, h3⟩
        · constructor
          · intro hx; simp at hx
          · intro hx
            exfalso
            apply endStatus_ne_active reason
            simpa using hx
        · intro lo hlo
          simp at hlo
          subst hlo
          simpa [SessionTracker.cleanOk] using hc
      · have he : applyOp t (TrackerOp.endSession reason now) = t := by
          simp [applyOp, SessionTracker.end_session, SessionTracker.saveChecked, hc]
        rw [he]
        exact ⟨h1, h2, h3⟩
  | addViolation vtype details now =>
      have hc : SessionTracker.cleanOk
          { t with violation_count := t.violation_count + 1,
                   violations := t.violations ++
                     [{ vtype := vtype, timestamp := now, details := details }] } = true :=
        trackerInvariant_cleanOk (t := t) ⟨h1, h2, h3⟩
      have he : applyOp t (TrackerOp.addViolation vtype details now) =
          { t with violation_count := t.violation_count + 1,
                   violations := t.violations ++
                     [{ vtype := vtype, timestamp := now, details := details }] } := by
        simp [applyOp, SessionTracker.add_violation, SessionTracker.saveChecked, hc]
      rw [he]
      refine ⟨h1, h2, ?_⟩
      simp [SessionTracker.get_violations] at h3 ⊢
      omega
  | updateActivity now =>
      have hc : SessionTracker.cleanOk { t with last_activity := now } = true :=
        trackerInvariant_cleanOk (t := t) ⟨h1, h2, h3⟩
      have he : applyOp t (TrackerOp.updateActivity now) =
          { t with last_activity := now } := by
        simp [applyOp, SessionTracker.update_activity, SessionTracker.saveChecked, hc]
      rw [he]
      exact ⟨h1, h2, h3⟩

/-- Sequences of core row mutations preserve the record invariant. -/
lemma applyOps_invariant (ops : List TrackerOp) :
    ∀ t : SessionTracker, trackerInvariant t → trackerInvariant (applyOps t ops) := by
  induction ops with
  | nil => intro t h; exact h
  | cons op rest ih =>
      intro t h
      exact ih (applyOp t op) (applyOp_invariant op h)

/-- C9: every tracker reachable from a freshly created row by `end_session`,
`add_violation` and `update_activity` satisfies the record invariant:
`logout_time` is null exactly when the status is `active`, `logout_time` is
never before `login_time`, and `violation_count` equals the length of
`get_violations`. -/
theorem C9_reachable_invariant :
    ∀ (u : Nat) (k ip : String) (now : Int) (ops : List TrackerOp),
      trackerInvariant (applyOps (newTracker u k ip now) ops) := by
  intro u k ip now ops
  refine applyOps_invariant ops (newTracker u k ip now) ⟨?_, ?_, ?_⟩
  · simp [newTracker]
  · intro lo hlo
    simp [newTracker] at hlo
  · simp [newTracker, SessionTracker.get_violations]

/-- C8: the cleanup sweep preserves the table length; its row effect expires
exactly the rows that are `active`, idle strictly beyond the cutoff and
without a `logout_time`, leaving every other row untouched; the applied
transition sets status `expired` and stamps `logout_time`; and running the
sweep twice at the same instant equals running it once. -/
theorem C8_cleanup_sweep :
    (∀ (sessions : List SessionTracker) (now : Int) (tm : Nat),
        (SessionTracker.cleanup_expired_sessions sessions now tm).length =
          sessions.length) ∧
    (∀ (sessions : List SessionTracker) (now : Int) (tm : Nat) (i : Nat)
        (hi : i < sessions.length)
        (hj : i < (SessionTracker.cleanup_expired_sessions sessions now tm).length),
        (SessionTracker.cleanup_expired_sessions sessions now tm).get ⟨i, hj⟩ =
          if (sessions.get ⟨i, hi⟩).status = "active" ∧
              (sessions.get ⟨i, hi⟩).last_activity < now - (tm : Int) * 60 ∧
              (sessions.get ⟨i, hi⟩).logout_time = none
          then SessionTracker.end_session (sessions.get ⟨i, hi⟩) "timeout" now
          else sessions.get ⟨i, hi⟩) ∧
    (∀ (s : SessionTracker) (now : Int), s.login_time ≤ now →
        SessionTracker.end_session s "timeout" now =
          { s with status := "expired", logout_time := some now }) ∧
    (∀ (sessions : List SessionTracker) (now : Int) (tm : Nat),
        SessionTracker.cleanup_expired_sessions
          (SessionTracker.cleanup_expired_sessions sessions now tm) now tm =
          SessionTracker.cleanup_expired_sessions sessions now tm) ∧
    SessionTracker.cleanup_expired_sessions [sC8idle45, sC8idle5] 10000 30 =
      [{ sC8idle45 with status := "expired", logout_time := some 10000 }, sC8idle5] := by
  have hstatus : SessionTracker.endStatus "timeout" = "expired" := by decide
  have hend : ∀ (s : SessionTracker) (now : Int), s.login_time ≤ now →
      SessionTracker.end_session s "timeout" now =
        { s with status := "expired", logout_time := some now } := by
    intro s now h
    have hc : SessionTracker.cleanOk
        { s with logout_time := some now, status := SessionTracker.endStatus "timeout" } = true := by
      simp [SessionTracker.cleanOk, h]
    rw [SessionTracker.end_session, SessionTracker.saveChecked, if_pos hc, hstatus]
  refine ⟨?_, ?_, hend, ?_, by decide⟩
  · intro sessions now tm
    simp [SessionTracker.cleanup_expired_sessions]
  · intro sessions now tm i hi hj
    simp [SessionTracker.cleanup_expired_sessions, List.get_eq_getElem, List.getElem_map]
  · intro sessions now tm
    unfold SessionTracker.cleanup_expired_sessions
    rw [List.map_map]
    refine List.map_congr_left ?_
    intro s _
    rw [Function.comp_apply]
    by_cases h : s.status = "active" ∧ s.last_activity < now - (tm : Int) * 60 ∧
        s.logout_time = none
    · rw [if_pos h]
      by_cases hc : SessionTracker.cleanOk
          { s with logout_time := some now, status := SessionTracker.endStatus "timeout" } = true
      · have he : SessionTracker.end_session s "timeout" now =
            { s with logout_time := some now, status := SessionTracker.endStatus "timeout" } := by
          rw [SessionTracker.end_session, SessionTracker.saveChecked, if_pos hc]
        rw [he, if_neg]
        intro hcon
        simp [hstatus] at hcon
      · have he : SessionTracker.end_session s "timeout" now = s := by
          rw [SessionTracker.end_session, SessionTracker.saveChecked, if_neg hc]
        rw [he, if_pos h, he]
    · rw [if_neg h, if_neg h]

/-- Witness for C8: at time 10000 with a 30-minute cutoff, the end transition
of the 45-minute-idle concrete row expires it with logout set, and the second
table slot (the 5-minute-idle row) is untouched by the sweep. -/
theorem C8_cleanup_sweep_witness :
    SessionTracker.end_session sC8idle45 "timeout" 10000 =
      { sC8idle45 with status := "expired", logout_time := some 10000 } ∧
    (SessionTracker.cleanup_expired_sessions [sC8idle45, sC8idle5] 10000 30).get
      ⟨1, by decide⟩ = sC8idle5 := by
  refine ⟨C8_cleanup_sweep.2.2.1 sC8idle45 10000 (by decide), ?_⟩
  rw [C8_cleanup_sweep.2.1 [sC8idle45, sC8idle5] 10000 30 1 (by decide) (by decide)]
  decide

/-- C4 counterexample: the store read fails while user 0 genuinely holds an
active session on another key (state `stC4`), yet the concurrency check
returns false and the concurrency step continues the request with the state
untouched — the session is allowed; no error reaches the caller. -/
theorem C4_counterexample :
    (get_active_sessions_for_user stC4.trackers 0).length = 1 ∧
    hasConcurrentSessionsChecked (Except.error "database unavailable") "newkey" = false ∧
    concurrencyStep "deny" 1 (Except.error "database unavailable") stC4 0 "newkey" 5 =
      (MwResponse.continueRequest, stC4) := by
  refine ⟨by decide, rfl, rfl⟩

/-- C4 amended: a store failure during the concurrency check is caught and
treated as "no concurrent sessions" — for every policy, limit, state and
request the concurrency step continues the request unchanged, and the
response is never a propagated store error. -/
theorem C4_store_failure_fails_open :
    ∀ (policy : String) (maxConcurrent : Nat) (e : String) (st : MgrState)
      (u : Nat) (k : String) (now : Int),
      hasConcurrentSessionsChecked (Except.error e) k = false ∧
      concurrencyStep policy maxConcurrent (Except.error e) st u k now =
        (MwResponse.continueRequest, st) ∧
      ∀ msg,
        (concurrencyStep policy maxConcurrent (Except.error e) st u k now).1 ≠
          MwResponse.storeFailure msg := by
  intro policy maxConcurrent e st u k now
  refine ⟨rfl, rfl, ?_⟩
  intro msg
  simp [concurrencyStep, hasConcurrentSessionsChecked]

/-- Auxiliary for `oldestFirst`: folding `olderRow` from a seed row yields the
seed or a member, no later than the seed and no later than any member. -/
lemma oldestFirst_foldl (l : List SessionTracker) :
    ∀ b o : SessionTracker, l.foldl olderRow (some b) = some o →
      (o = b ∨ o ∈ l) ∧ o.login_time ≤ b.login_time ∧
        ∀ t ∈ l, o.login_time ≤ t.login_time := by
  induction l with
  | nil =>
      intro b o h
      simp at h
      subst h
      exact ⟨Or.inl rfl, le_refl _, by intro t ht; cases ht⟩
  | cons x xs ih =>
      intro b o h
      rw [List.foldl_cons] at h
      by_cases hx : x.login_time < b.login_time
      · rw [show olderRow (some b) x = some x by simp [olderRow, hx]] at h
        obtain ⟨hmem, hle, hall⟩ := ih x o h
        refine ⟨?_, le_trans hle (le_of_lt hx), ?_⟩
        · rcases hmem with h1 | h1
          · exact Or.inr (by rw [h1]; exact List.mem_cons_self x xs)
          · exact Or.inr (List.mem_cons_of_mem x h1)
        · intro t ht
          rcases List.mem_cons.mp ht with h1 | h1
          · rw [h1]; exact hle
          · exact hall t h1
      · rw [show olderRow (some b) x = some b by simp [olderRow, hx]] at h
        obtain ⟨hmem, hle, hall⟩ := ih b o h
        refine ⟨?_, hle, ?_⟩
        · rcases hmem with h1 | h1
          · exact Or.inl h1
          · exact Or.inr (List.mem_cons_of_mem x h1)
        · intro t ht
          rcases List.mem_cons.mp ht with h1 | h1
          · rw [h1]; exact le_trans hle (not_lt.mp hx)
          · exact hall t h1

/-- The row selected by `oldestFirst` is a member of minimal `login_time`. -/
lemma oldestFirst_spec {l : List SessionTracker} {o : SessionTracker}
    (h : oldestFirst l = some o) :
    o ∈ l ∧ ∀ t ∈ l, o.login_time ≤ t.login_time := by
  cases l with
  | nil => simp [oldestFirst] at h
  | cons x xs =>
      rw [oldestFirst, List.foldl_cons, show olderRow none x = some x from rfl] at h
      obtain ⟨hmem, hle, hall⟩ := oldestFirst_foldl xs x o h
      constructor
      · rcases hmem with h1 | h1
        · rw [h1]; exact List.mem_cons_self x xs
        · exact List.mem_cons_of_mem x h1
      · intro t ht
        rcases List.mem_cons.mp ht with h1 | h1
        · rw [h1]; exact hle
        · exact hall t h1

/-- A row whose key is not the updated one stays in the table unchanged. -/
lemma mem_updateByKey_of_ne {ts : List SessionTracker} {t : SessionTracker}
    (ht : t ∈ ts) {k : String} (hk : t.session_key ≠ k)
    (f : SessionTracker → SessionTracker) : t ∈ updateByKey ts k f := by
  rw [updateByKey]
  have hmap : (if t.session_key = k then f t else t) ∈
      List.map (fun x => if x.session_key = k then f x else x) ts :=
    List.mem_map_of_mem (fun x => if x.session_key = k then f x else x) ht
  rw [if_neg hk] at hmap
  exact hmap

/-- A keyed update misses every row of a table holding no such key. -/
lemma updateByKey_eq_of_not_key {k : String} (f : SessionTracker → SessionTracker) :
    ∀ {ts : List SessionTracker}, (∀ t ∈ ts, t.session_key ≠ k) →
      updateByKey ts k f = ts := by
  intro ts
  induction ts with
  | nil => intro _; rfl
  | cons x xs ih =>
      intro h
      have htail := ih (fun t htx => h t (List.mem_cons_of_mem x htx))
      rw [updateByKey] at htail ⊢
      rw [List.map_cons, if_neg (h x (List.mem_cons_self x xs)), htail]

/-- A deleted transport key is gone. -/
lemma not_mem_removeKey (ks : List String) (k : String) : k ∉ removeKey ks k := by
  intro h
  have h2 := (List.mem_filter.mp h).2
  simp at h2

/-- Ending exactly the (unique-keyed) member row `o`, when the update makes it
non-active, drops the active count by exactly one. -/
lemma active_len_update_end (u : Nat) (f : SessionTracker → SessionTracker) :
    ∀ {ts : List SessionTracker} {o : SessionTracker}, o ∈ ts →
      (ts.map fun t => t.session_key).Nodup →
      isActiveForUser u o = true → isActiveForUser u (f o) = false →
      (get_active_sessions_for_user (updateByKey ts o.session_key f) u).length + 1 =
        (get_active_sessions_for_user ts u).length := by
  intro ts
  induction ts with
  | nil => intro o h; cases h
  | cons x xs ih =>
      intro o hmem hnodup hact hf
      rw [List.map_cons, List.nodup_cons] at hnodup
      by_cases hk : x.session_key = o.session_key
      · have hxo : x = o := by
          rcases List.mem_cons.mp hmem with h1 | h1
          · exact h1.symm
          · exact absurd (hk ▸ List.mem_map_of_mem (fun t => t.session_key) h1) hnodup.1
        subst hxo
        have hxs : updateByKey xs x.session_key f = xs := by
          refine updateByKey_eq_of_not_key f ?_
          intro t htx hkey
          exact hnodup.1 (hkey ▸ List.mem_map_of_mem (fun t2 => t2.session_key) htx)
        rw [updateByKey, List.map_cons, if_pos rfl,
          show (List.map (fun t => if t.session_key = x.session_key then f t else t) xs) =
            updateByKey xs x.session_key f from rfl, hxs]
        rw [get_active_sessions_for_user, get_active_sessions_for_user,
          List.filter_cons, List.filter_cons, hf, hact]
        simp
      · have ho : o ∈ xs := by
          rcases List.mem_cons.mp hmem with h1 | h1
          · exact absurd (by rw [h1]) hk
          · exact h1
        have hrec := ih ho hnodup.2 hact hf
        rw [updateByKey, List.map_cons, if_neg hk,
          show (List.map (fun t => if t.session_key = o.session_key then f t else t) xs) =
            updateByKey xs o.session_key f from rfl]
        rw [get_active_sessions_for_user, List.filter_cons]
        rw [get_active_sessions_for_user, List.filter_cons]
        rw [get_active_sessions_for_user, get_active_sessions_for_user] at hrec
        cases hax : isActiveForUser u x
        · simp only [hax, Bool.false_eq_true, if_false]
          exact hrec
        · simp only [hax, if_true, List.length_cons]
          omega

/-- The status written when replace_oldest evicts (reason new_session_limit)
is `inactive`. -/
lemma endStatus_new_session_limit :
    SessionTracker.endStatus "new_session_limit" = "inactive" := by
  decide

/-- C2 amended: under the replace_oldest policy the engine decides on the
cached session count.  When the count is fresh (no cached value), a user at
the session limit has the new session permitted and exactly one session ended
— the first-created active session among those of minimal `login_time` (ties
are broken by row creation order, not by lexically lowest session_key); that
session gets terminal status `inactive` with `logout_time` stamped, its
transport session is deleted, every other row is untouched, and the
active-session count of the user drops by exactly one.  When a stale
below-limit count is cached for the user, the engine permits the new session
and ends nothing: the state comes back unchanged, even though the user is in
fact at the limit. -/
theorem C2_replace_oldest_behaviour :
    (∀ (st : MgrState) (u maxConcurrent : Nat) (now : Int) (o : SessionTracker),
      cacheLookup st.sessionCountCache u = none →
      maxConcurrent ≤ (get_active_sessions_for_user st.trackers u).length →
      oldestFirst (get_active_sessions_for_user st.trackers u) = some o →
      o.login_time ≤ now →
      (st.trackers.map fun t => t.session_key).Nodup →
      ∃ cache2,
        handle_concurrent_session_attempt "replace_oldest" maxConcurrent st u now =
          (true, "Oldest session terminated, new session allowed",
            { trackers := updateByKey st.trackers o.session_key
                (fun t => t.end_session "new_session_limit" now),
              djangoSessions := removeKey st.djangoSessions o.session_key,
              sessionCountCache := cache2 }) ∧
        o ∈ get_active_sessions_for_user st.trackers u ∧
        (∀ t ∈ get_active_sessions_for_user st.trackers u,
            o.login_time ≤ t.login_time) ∧
        SessionTracker.end_session o "new_session_limit" now =
          { o with status := "inactive", logout_time := some now } ∧
        (∀ t ∈ st.trackers, t.session_key ≠ o.session_key →
            t ∈ updateByKey st.trackers o.session_key
              (fun t2 => t2.end_session "new_session_limit" now)) ∧
        (get_active_sessions_for_user
            (updateByKey st.trackers o.session_key
              (fun t => t.end_session "new_session_limit" now)) u).length + 1 =
          (get_active_sessions_for_user st.trackers u).length ∧
        o.session_key ∉ removeKey st.djangoSessions o.session_key) ∧
    (∀ (st : MgrState) (u maxConcurrent : Nat) (now : Int) (c : Nat),
      cacheLookup st.sessionCountCache u = some c →
      c < maxConcurrent →
      handle_concurrent_session_attempt "replace_oldest" maxConcurrent st u now =
        (true, "Session allowed", st)) := by
  constructor
  · intro st u maxConcurrent now o hcache hlimit ho hnow hkeys
    obtain ⟨homem, homin⟩ := oldestFirst_spec ho
    have hoact : isActiveForUser u o = true := List.of_mem_filter homem
    have hcleanok : SessionTracker.cleanOk
        { o with logout_time := some now,
                 status := SessionTracker.endStatus "new_session_limit" } = true := by
      simp [SessionTracker.cleanOk, hnow]
    have hend : SessionTracker.end_session o "new_session_limit" now =
        { o with status := "inactive", logout_time := some now } := by
      rw [SessionTracker.end_session, SessionTracker.saveChecked, if_pos hcleanok,
        endStatus_new_session_limit]
    have hnotallowed : decide ((get_active_sessions_for_user st.trackers u).length <
        maxConcurrent) = false :=
      decide_eq_false (not_lt.mpr hlimit)
    have hmain : handle_concurrent_session_attempt "replace_oldest" maxConcurrent st u now =
        (true, "Oldest session terminated, new session allowed",
          { trackers := updateByKey st.trackers o.session_key
              (fun t => t.end_session "new_session_limit" now),
            djangoSessions := removeKey st.djangoSessions o.session_key,
            sessionCountCache := cacheClear
              ((u, (get_active_sessions_for_user st.trackers u).length)
                :: st.sessionCountCache) u }) := by
      have hoold : end_oldest_session_for_user
          { st with sessionCountCache :=
              (u, (get_active_sessions_for_user st.trackers u).length)
                :: st.sessionCountCache } u "new_session_limit" now =
          (true,
            { trackers := updateByKey st.trackers o.session_key
                (fun t => t.end_session "new_session_limit" now),
              djangoSessions := removeKey st.djangoSessions o.session_key,
              sessionCountCache := cacheClear
                ((u, (get_active_sessions_for_user st.trackers u).length)
                  :: st.sessionCountCache) u }) := by
        rw [end_oldest_session_for_user]
        rw [show ({ st with sessionCountCache :=
            (u, (get_active_sessions_for_user st.trackers u).length)
              :: st.sessionCountCache } : MgrState).trackers = st.trackers from rfl, ho]
        simp [hcleanok]
      rw [handle_concurrent_session_attempt, can_create_new_session,
        get_session_count_for_user, hcache]
      simp only [hnotallowed, Bool.false_eq_true, if_false, hoold]
      simp
    refine ⟨_, hmain, homem, homin, hend, ?_, ?_, not_mem_removeKey _ _⟩
    · intro t ht hk
      exact mem_updateByKey_of_ne ht hk _
    · refine active_len_update_end u _ ?_ hkeys hoact ?_
      · exact List.mem_of_mem_filter homem
      · rw [hend]
        simp [isActiveForUser]
  · intro st u maxConcurrent now c hlk hlt
    have hcount : get_session_count_for_user st u = (c, st) := by
      rw [get_session_count_for_user, hlk]
    have hdec : decide (c < maxConcurrent) = true := decide_eq_true hlt
    rw [handle_concurrent_session_attempt, can_create_new_session, hcount]
    simp [hdec]

/-- Witness for C2 amended: at the concrete fresh-count two-session state the
attempt is allowed and the older row b is stamped inactive with logout 10; at
the same table with the stale cached count 1 and limit 2, the attempt is
allowed with the state returned unchanged. -/
theorem C2_replace_oldest_behaviour_witness :
    (handle_concurrent_session_attempt "replace_oldest" 1 stC2distinct 0 10).1 = true ∧
    SessionTracker.end_session tC2rowB "new_session_limit" 10 =
      { tC2rowB with status := "inactive", logout_time := some 10 } ∧
    handle_concurrent_session_attempt "replace_oldest" 2 stC2stale 0 10 =
      (true, "Session allowed", stC2stale) := by
  obtain ⟨c2, heq, hmem, hmin, hend, hrest⟩ :=
    C2_replace_oldest_behaviour.1 stC2distinct 0 1 10 tC2rowB
      rfl (by decide) (by decide) (by decide) (by decide)
  exact ⟨by rw [heq], hend,
    C2_replace_oldest_behaviour.2 stC2stale 0 2 10 1 rfl (by decide)⟩

/-- C2 counterexample, refuting the claim as stated at two concrete inputs.
Tie-break direction: in `stC2tie` both active sessions of user 0 share
`login_time` 0 and were created in order b, a; the lexically lowest key is a,
yet the engine ends b (the first-created row) and leaves a active.
Stale cached count: in `stC2stale` user 0 is at the limit (two active
sessions, limit 2), but the stale below-limit count 1 is cached, so the
engine permits the new session while ending nothing — no session is ended
(the state is unchanged), against the claimed eviction of the
minimal-login_time session. -/
theorem C2_counterexample :
    (strLe "a" "b" = true ∧ ("a" : String) ≠ "b" ∧
      (handle_concurrent_session_attempt "replace_oldest" 1 stC2tie 0 10).1 = true ∧
      (handle_concurrent_session_attempt "replace_oldest" 1 stC2tie 0 10).2.2.trackers.map
          (fun t => (t.session_key, t.status)) =
        [("b", "inactive"), ("a", "active")]) ∧
    ((get_active_sessions_for_user stC2stale.trackers 0).length = 2 ∧
      cacheLookup stC2stale.sessionCountCache 0 = some 1 ∧
      handle_concurrent_session_attempt "replace_oldest" 2 stC2stale 0 10 =
        (true, "Session allowed", stC2stale)) := by
  decide

/-- Mapping a function over a list cannot increase the number of elements
satisfying a predicate, provided the function never turns a non-satisfying
element into a satisfying one. -/
lemma length_filter_map_le {α : Type} (p : α → Bool) (g : α → α)
    (h : ∀ a, p (g a) = true → p a = true) :
    ∀ l : List α, (List.filter p (List.map g l)).length ≤ (List.filter p l).length := by
  intro l
  induction l with
  | nil => simp
  | cons x xs ih =>
      rw [List.map_cons, List.filter_cons, List.filter_cons]
      cases hgx : p (g x)
      · cases hx : p x
        · simpa using ih
        · simp only [Bool.false_eq_true, if_false, if_true]
          exact le_trans ih (Nat.le_succ _)
      · rw [h x hgx]
        simpa using ih

/-- A keyed row update cannot increase the active-session count of a user, as
long as the row function never activates an inactive row. -/
lemma active_updateByKey_le (u : Nat) (k : String) (f : SessionTracker → SessionTracker)
    (hf : ∀ t, isActiveForUser u (f t) = true → isActiveForUser u t = true)
    (ts : List SessionTracker) :
    (get_active_sessions_for_user (updateByKey ts k f) u).length ≤
      (get_active_sessions_for_user ts u).length := by
  rw [get_active_sessions_for_user, get_active_sessions_for_user, updateByKey]
  refine length_filter_map_le _ _ ?_ ts
  intro a ha
  by_cases hk : a.session_key = k
  · rw [if_pos hk] at ha
    exact hf a ha
  · rwa [if_neg hk] at ha

/-- `end_session` never activates a row. -/
lemma isActive_end_session_mono (u : Nat) (t : SessionTracker) (r : String) (n : Int)
    (h : isActiveForUser u (t.end_session r n) = true) : isActiveForUser u t = true := by
  rw [SessionTracker.end_session, SessionTracker.saveChecked] at h
  split at h
  · exfalso
    rw [isActiveForUser] at h
    have hst := (of_decide_eq_true h).2.1
    exact endStatus_ne_active r (by simpa using hst)
  · exact h

/-- `add_violation` leaves the active-row predicate unchanged. -/
lemma isActive_add_violation (u : Nat) (t : SessionTracker) (v d : String) (n : Int) :
    isActiveForUser u (t.add_violation v d n) = isActiveForUser u t := by
  rw [SessionTracker.add_violation, SessionTracker.saveChecked]
  split
  · rfl
  · rfl

/-- `update_activity` leaves the active-row predicate unchanged. -/
lemma isActive_update_activity (u : Nat) (t : SessionTracker) (n : Int) :
    isActiveForUser u (t.update_activity n) = isActiveForUser u t := by
  rw [SessionTracker.update_activity, SessionTracker.saveChecked]
  split
  · rfl
  · rfl

/-- Appending monitor violations leaves the active-row predicate unchanged. -/
lemma isActive_foldl_add_violation (u : Nat) (now : Int) :
    ∀ (tags : List String) (t : SessionTracker),
      isActiveForUser u
        (tags.foldl (fun acc tag => acc.add_violation tag "detected" now) t) =
      isActiveForUser u t := by
  intro tags
  induction tags with
  | nil => intro t; rfl
  | cons x xs ih =>
      intro t
      rw [List.foldl_cons, ih, isActive_add_violation]

/-- Appending one active row raises the active count by exactly one. -/
lemma active_append_one (ts : List SessionTracker) (u : Nat) (t : SessionTracker)
    (ht : isActiveForUser u t = true) :
    (get_active_sessions_for_user (ts ++ [t]) u).length =
      (get_active_sessions_for_user ts u).length + 1 := by
  rw [get_active_sessions_for_user, get_active_sessions_for_user, List.filter_append]
  simp [ht]

/-- A positive concurrency check over a healthy store read means the user
holds at least one active session. -/
lemma one_le_active_of_hasConc {A : List SessionTracker} {k : String}
    (h : hasConcurrentSessionsChecked (Except.ok A) k = true) : 1 ≤ A.length := by
  have h2 : A.any (fun t => decide (t.session_key ≠ k)) = true := h
  obtain ⟨t, ht, _⟩ := List.any_eq_true.mp h2
  exact List.length_pos.mpr (List.ne_nil_of_mem ht)

/-- Every value returned by the session-count cache occurs in it. -/
lemma cacheLookup_ge {cache : List (Nat × Nat)} (h2 : ∀ p ∈ cache, 1 ≤ p.2)
    {u c : Nat} (h : cacheLookup cache u = some c) : 1 ≤ c := by
  rw [cacheLookup] at h
  obtain ⟨p, hp, hpc⟩ := Option.map_eq_some'.mp h
  have hmem := List.mem_of_find?_eq_some hp
  exact hpc ▸ h2 p hmem

/-- When no stored row holds the key of a freshly created tracker and the
concurrency check on the post-creation table is negative, the user had no
active session before the creation. -/
lemma active_nil_of_no_conc {ts : List SessionTracker} {u : Nat} {k : String}
    {x : SessionTracker} (hkeys : keyExists ts k = false)
    (hconc : hasConcurrentSessionsChecked
      (Except.ok (get_active_sessions_for_user (ts ++ [x]) u)) k = false) :
    get_active_sessions_for_user ts u = [] := by
  rw [List.eq_nil_iff_forall_not_mem]
  intro t ht
  have htts : t ∈ ts := by
    rw [get_active_sessions_for_user] at ht
    exact List.mem_of_mem_filter ht
  have hkne : t.session_key ≠ k := by
    intro hkey
    have hany : ts.any (fun t2 => decide (t2.session_key = k)) = true :=
      List.any_eq_true.mpr ⟨t, htts, by simp [hkey]⟩
    rw [keyExists] at hkeys
    rw [hkeys] at hany
    cases hany
  have hconc2 : (get_active_sessions_for_user (ts ++ [x]) u).any
      (fun t2 => decide (t2.session_key ≠ k)) = false := hconc
  have hmem2 : t ∈ get_active_sessions_for_user (ts ++ [x]) u := by
    rw [get_active_sessions_for_user, List.filter_append]
    rw [get_active_sessions_for_user] at ht
    exact List.mem_append_left _ ht
  have hall := List.any_eq_false.mp hconc2 t hmem2
  simp at hall
  exact hkne hall

/-- A freshly created tracker is never timed out by the middleware at its own
creation instant. -/
lemma new_not_expired (timeoutMin : Nat) (u : Nat) (k ip : String) (now : Int) :
    mwIsSessionExpired timeoutMin (newTracker u k ip now) now = false := by
  rw [mwIsSessionExpired, newTracker]
  simp

/-- The deny handling applied to a freshly created tracker — a
concurrent-session violation followed by ending with reason violation —
leaves a non-active row. -/
lemma denyEnd_newTracker_not_active (u : Nat) (k ip : String) (now : Int) (msg : String) :
    isActiveForUser u
      (((newTracker u k ip now).add_violation "concurrent_session" msg now).end_session
        "violation" now) = false := by
  simp [newTracker, SessionTracker.add_violation, SessionTracker.end_session,
    SessionTracker.saveChecked, SessionTracker.cleanOk, SessionTracker.endStatus,
    isActiveForUser]

/-- A table with no row holding a key contains no row with that key. -/
lemma not_key_of_keyExists_false {ts : List SessionTracker} {k : String}
    (h : keyExists ts k = false) : ∀ t ∈ ts, t.session_key ≠ k := by
  intro t ht hk
  have hany : ts.any (fun t2 => decide (t2.session_key = k)) = true :=
    List.any_eq_true.mpr ⟨t, ht, by simp [hk]⟩
  rw [keyExists] at h
  rw [h] at hany
  cases hany

/-- A freshly created tracker is an active row of its user. -/
lemma isActive_newTracker (u : Nat) (k ip : String) (now : Int) :
    isActiveForUser u (newTracker u k ip now) = true := by
  simp [isActiveForUser, newTracker]

/-- The activity-update and monitoring tail preserves the single-user
invariant. -/
lemma denyInvariant_activityAndMonitorStep (u : Nat) (st : MgrState)
    (t : SessionTracker) (k : String) (now : Int) (h : denyInvariant u st) :
    denyInvariant u (activityAndMonitorStep st t k now) := by
  obtain ⟨h1, h2⟩ := h
  constructor
  · refine le_trans (active_updateByKey_le u k _ ?_ _)
      (le_trans (active_updateByKey_le u k _ ?_ _) h1)
    · intro t2 ht2
      rwa [isActive_foldl_add_violation] at ht2
    · intro t2 ht2
      rwa [isActive_update_activity] at ht2
  · intro p hp
    exact h2 p hp

/-- The concurrency handler under policy deny with limit 1 preserves the
single-user invariant (the user holds at least one active session when the
handler is reached, which keeps every cached count at least 1). -/
lemma handleConcurrentSession_deny_inv (u : Nat) (k : String) (now : Int) (st0 : MgrState)
    (h1 : (get_active_sessions_for_user st0.trackers u).length ≤ 1)
    (h2 : ∀ p ∈ st0.sessionCountCache, 1 ≤ p.2)
    (hone : 1 ≤ (get_active_sessions_for_user st0.trackers u).length) :
    denyInvariant u (handleConcurrentSession "deny" 1 st0 u k now).2 := by
  · rw [handleConcurrentSession]
    cases hlk : cacheLookup st0.sessionCountCache u with
    | some c =>
        have hcge : 1 ≤ c := cacheLookup_ge h2 hlk
        have hcount : get_session_count_for_user st0 u = (c, st0) := by
          rw [get_session_count_for_user, hlk]
        have hdec : decide (c < 1) = false := decide_eq_false (by omega)
        have hatt : handle_concurrent_session_attempt "deny" 1 st0 u now =
            (false,
              "Multiple sessions not allowed. Please log out from other devices first.",
              st0) := by
          rw [handle_concurrent_session_attempt, can_create_new_session, hcount]
          simp only [hdec, Bool.false_eq_true, if_false]
          rw [if_neg (by decide), if_neg (by decide)]
        rw [hatt]
        simp only [Bool.false_eq_true, if_false]
        constructor
        · refine le_trans (active_updateByKey_le u k _ ?_ _) h1
          intro t2 ht2
          have ht3 := isActive_end_session_mono u _ "violation" now ht2
          rwa [isActive_add_violation] at ht3
        · intro p hp
          exact h2 p hp
    | none =>
        have hcount : get_session_count_for_user st0 u =
            ((get_active_sessions_for_user st0.trackers u).length,
              { st0 with sessionCountCache :=
                (u, (get_active_sessions_for_user st0.trackers u).length)
                  :: st0.sessionCountCache }) := by
          rw [get_session_count_for_user, hlk]
        have hdec :
            decide ((get_active_sessions_for_user st0.trackers u).length < 1) = false :=
          decide_eq_false (by omega)
        have hatt : handle_concurrent_session_attempt "deny" 1 st0 u now =
            (false,
              "Multiple sessions not allowed. Please log out from other devices first.",
              { st0 with sessionCountCache :=
                (u, (get_active_sessions_for_user st0.trackers u).length)
                  :: st0.sessionCountCache }) := by
          rw [handle_concurrent_session_attempt, can_create_new_session, hcount]
          simp only [hdec, Bool.false_eq_true, if_false]
          rw [if_neg (by decide), if_neg (by decide)]
        rw [hatt]
        simp only [Bool.false_eq_true, if_false]
        constructor
        · refine le_trans (active_updateByKey_le u k _ ?_ _) h1
          intro t2 ht2
          have ht3 := isActive_end_session_mono u _ "violation" now ht2
          rwa [isActive_add_violation] at ht3
        · intro p hp
          rcases List.mem_cons.mp hp with hh | hh
          · rw [hh]
            exact hone
          · exact h2 p hh

/-- One deny-policy request step (limit 1, timeout 30) preserves the
single-user invariant. -/
lemma denyStep_preserves (u : Nat) (k ip : String) (now : Int) (st : MgrState)
    (h : denyInvariant u st) :
    denyInvariant u (process_request "deny" 1 30 st u k ip now).2 := by
  obtain ⟨h1, h2⟩ := h
  cases hfind : findActiveByKey st.trackers k with
  | some t =>
      have hget : getOrCreateSessionTracker st u k ip now = (some t, st) := by
        rw [getOrCreateSessionTracker, hfind]
      simp only [process_request, hget]
      by_cases hexp : mwIsSessionExpired 30 t now = true
      · rw [if_pos hexp]
        constructor
        · refine le_trans (active_updateByKey_le u k _ ?_ _) h1
          intro t2 ht2
          exact isActive_end_session_mono u t2 "timeout" now ht2
        · intro p hp
          exact h2 p hp
      · rw [if_neg hexp]
        cases hcc : hasConcurrentSessionsChecked
            (Except.ok (get_active_sessions_for_user st.trackers u)) k
        · rw [if_neg Bool.false_ne_true]
          exact denyInvariant_activityAndMonitorStep u st t k now ⟨h1, h2⟩
        · rw [if_pos rfl]
          exact handleConcurrentSession_deny_inv u k now st h1 h2
            (one_le_active_of_hasConc hcc)
  | none =>
      by_cases hkey : keyExists st.trackers k = true
      · have hget : getOrCreateSessionTracker st u k ip now = (none, st) := by
          rw [getOrCreateSessionTracker, hfind, if_pos hkey]
        simp only [process_request, hget]
        exact ⟨h1, h2⟩
      · have hkf : keyExists st.trackers k = false := by
          cases hk2 : keyExists st.trackers k
          · rfl
          · exact absurd hk2 hkey
        have hget : getOrCreateSessionTracker st u k ip now =
            (some (newTracker u k ip now),
              { st with trackers := st.trackers ++ [newTracker u k ip now] }) := by
          rw [getOrCreateSessionTracker, hfind, if_neg hkey]
        simp only [process_request, hget]
        rw [if_neg (by rw [new_not_expired]; exact Bool.false_ne_true)]
        cases hcc : hasConcurrentSessionsChecked
            (Except.ok (get_active_sessions_for_user
              ({ st with trackers := st.trackers ++ [newTracker u k ip now] } :
                MgrState).trackers u)) k
        · rw [if_neg Bool.false_ne_true]
          have hnil : get_active_sessions_for_user st.trackers u = [] :=
            active_nil_of_no_conc hkf hcc
          have hlen : (get_active_sessions_for_user
              (st.trackers ++ [newTracker u k ip now]) u).length = 1 := by
            rw [active_append_one st.trackers u _ (isActive_newTracker u k ip now), hnil]
            rfl
          exact denyInvariant_activityAndMonitorStep u _ _ k now ⟨le_of_eq hlen, h2⟩
        · rw [if_pos rfl]
          have hone : 1 ≤ (get_active_sessions_for_user
              (st.trackers ++ [newTracker u k ip now]) u).length :=
            one_le_active_of_hasConc hcc
          rw [handleConcurrentSession]
          have hup : ∀ msg : String,
              get_active_sessions_for_user
                (updateByKey (st.trackers ++ [newTracker u k ip now]) k
                  (fun t2 => (t2.add_violation "concurrent_session" msg now).end_session
                    "violation" now)) u =
              get_active_sessions_for_user st.trackers u := by
            intro msg
            rw [updateByKey, List.map_append,
              show List.map (fun t2 => if t2.session_key = k then
                  (t2.add_violation "concurrent_session" msg now).end_session "violation" now
                else t2) st.trackers =
                updateByKey st.trackers k (fun t2 =>
                  (t2.add_violation "concurrent_session" msg now).end_session "violation" now)
                from rfl,
              updateByKey_eq_of_not_key _ (not_key_of_keyExists_false hkf)]
            rw [get_active_sessions_for_user, get_active_sessions_for_user,
              List.filter_append]
            have hfnew : isActiveForUser u
                (if (newTracker u k ip now).session_key = k then
                  ((newTracker u k ip now).add_violation "concurrent_session" msg now).end_session
                    "violation" now
                else newTracker u k ip now) = false := by
              rw [if_pos (show (newTracker u k ip now).session_key = k from rfl)]
              exact denyEnd_newTracker_not_active u k ip now msg
            simp [hfnew]
          cases hlk : cacheLookup st.sessionCountCache u with
          | some c =>
              have hcge : 1 ≤ c := cacheLookup_ge h2 hlk
              have hcount : get_session_count_for_user
                  { st with trackers := st.trackers ++ [newTracker u k ip now] } u =
                  (c, { st with trackers := st.trackers ++ [newTracker u k ip now] }) := by
                rw [get_session_count_for_user]
                rw [show ({ st with trackers := st.trackers ++ [newTracker u k ip now] } :
                  MgrState).sessionCountCache = st.sessionCountCache from rfl, hlk]
              have hdec : decide (c < 1) = false := decide_eq_false (by omega)
              have hatt : handle_concurrent_session_attempt "deny" 1
                  { st with trackers := st.trackers ++ [newTracker u k ip now] } u now =
                  (false,
                    "Multiple sessions not allowed. Please log out from other devices first.",
                    { st with trackers := st.trackers ++ [newTracker u k ip now] }) := by
                rw [handle_concurrent_session_attempt, can_create_new_session, hcount]
                simp only [hdec, Bool.false_eq_true, if_false]
                rw [if_neg (by decide), if_neg (by decide)]
              rw [hatt]
              simp only [Bool.false_eq_true, if_false]
              constructor
              · show (get_active_sessions_for_user
                    (updateByKey (st.trackers ++ [newTracker u k ip now]) k
                      (fun t2 => (t2.add_violation "concurrent_session"
                        "Multiple sessions not allowed. Please log out from other devices first."
                        now).end_session "violation" now)) u).length ≤ 1
                rw [hup]
                exact h1
              · intro p hp
                exact h2 p hp
          | none =>
              have hcount : get_session_count_for_user
                  { st with trackers := st.trackers ++ [newTracker u k ip now] } u =
                  ((get_active_sessions_for_user
                      (st.trackers ++ [newTracker u k ip now]) u).length,
                    { st with
                      trackers := st.trackers ++ [newTracker u k ip now],
                      sessionCountCache :=
                        (u, (get_active_sessions_for_user
                          (st.trackers ++ [newTracker u k ip now]) u).length)
                          :: st.sessionCountCache }) := by
                rw [get_session_count_for_user]
                rw [show ({ st with trackers := st.trackers ++ [newTracker u k ip now] } :
                  MgrState).sessionCountCache = st.sessionCountCache from rfl, hlk]
              have hdec : decide ((get_active_sessions_for_user
                  (st.trackers ++ [newTracker u k ip now]) u).length < 1) = false :=
                decide_eq_false (by omega)
              have hatt : handle_concurrent_session_attempt "deny" 1
                  { st with trackers := st.trackers ++ [newTracker u k ip now] } u now =
                  (false,
                    "Multiple sessions not allowed. Please log out from other devices first.",
                    { st with
                      trackers := st.trackers ++ [newTracker u k ip now],
                      sessionCountCache :=
                        (u, (get_active_sessions_for_user
                          (st.trackers ++ [newTracker u k ip now]) u).length)
                          :: st.sessionCountCache }) := by
                rw [handle_concurrent_session_attempt, can_create_new_session, hcount]
                simp only [hdec, Bool.false_eq_true, if_false]
                rw [if_neg (by decide), if_neg (by decide)]
              rw [hatt]
              simp only [Bool.false_eq_true, if_false]
              constructor
              · show (get_active_sessions_for_user
                    (updateByKey (st.trackers ++ [newTracker u k ip now]) k
                      (fun t2 => (t2.add_violation "concurrent_session"
                        "Multiple sessions not allowed. Please log out from other devices first."
                        now).end_session "violation" now)) u).length ≤ 1
                rw [hup]
                exact h1
              · intro p hp
                rcases List.mem_cons.mp hp with hh | hh
                · rw [hh]
                  exact hone
                · exact h2 p hh

/-- Every deny-policy run from a state satisfying the invariant keeps it. -/
lemma runRequests_deny_inv (u : Nat) (reqs : List Request) :
    ∀ st : MgrState, denyInvariant u st →
      denyInvariant u (runRequests "deny" 1 30 u st reqs) := by
  induction reqs with
  | nil => intro st h; exact h
  | cons r rest ih =>
      intro st h
      have hstep : runRequests "deny" 1 30 u st (r :: rest) =
          runRequests "deny" 1 30 u
            (process_request "deny" 1 30 st u r.session_key r.ip r.now).2 rest := rfl
      rw [hstep]
      exact ih _ (denyStep_preserves u r.session_key r.ip r.now st h)

/-- C1: for every sequence of session-create requests of a single user under
policy deny with limit 1 (each request processed as one middleware step:
resolve-or-create tracker, timeout check, concurrency check, deny handling
that ends the new attempt with status violation), the final state — and hence
the state at the end of every step, each prefix being such a sequence — holds
at most one active tracker of that user with null logout_time. -/
theorem C1_deny_at_most_one_active :
    ∀ (u : Nat) (reqs : List Request),
      (get_active_sessions_for_user
        (runRequests "deny" 1 30 u emptyState reqs).trackers u).length ≤ 1 := by
  intro u reqs
  refine (runRequests_deny_inv u reqs emptyState ⟨?_, ?_⟩).1
  · rw [emptyState]
    exact Nat.zero_le 1
  · intro p hp
    cases hp

end BYOD
